import Mathlib

/-!
Verification of the envd docker lifecycle client (pkg/docker, file `docker.go` in this
repository) against its design specification.

The development embeds the lifecycle operations of the `generalClient` type as pure Lean
functions.  The container host (the docker daemon) is external to the repository; it is
modelled as a small state machine over container statuses, producing error strings in the
daemon message formats that the repository code classifies by substring matching.
-/

namespace Envd

/-- Boolean substring test: `containsSubstr s pat` holds when `pat` occurs contiguously
inside `s`.  This embeds Go `strings.Contains(s, pat)` as used throughout `docker.go`. -/
def containsSubstr (s pat : String) : Bool :=
  decide (pat.toList <:+: s.toList)

/-- A string always contains its own suffix: `containsSubstr (s ++ p) p`. -/
theorem containsSubstr_append_right (s p : String) : containsSubstr (s ++ p) p = true := by
  simp only [containsSubstr, decide_eq_true_eq, String.toList, String.data_append]
  exact List.IsSuffix.isInfix (List.suffix_append s.data p.data)

/-- A string always contains its own prefix: `containsSubstr (p ++ b) p`. -/
theorem containsSubstr_append_left (p b : String) : containsSubstr (p ++ b) p = true := by
  simp only [containsSubstr, decide_eq_true_eq, String.toList, String.data_append]
  exact List.IsPrefix.isInfix ( List.prefix_append p.data b.data)

/-- A string contains any middle factor: `containsSubstr (a ++ p ++ b) p`. -/
theorem containsSubstr_middle (a p b : String) : containsSubstr (a ++ p ++ b) p = true := by
  simp only [containsSubstr, decide_eq_true_eq, String.toList, String.data_append]
  exact List.infix_append a.data p.data b.data

/-- Observable status of a container on the host.  `stopped` covers both the
created-but-not-started and the exited states: the daemon treats them alike for every
operation this client performs (they are the not-running, not-paused states). -/
inductive ContainerStatus where
  | stopped
  | running
  | paused
deriving DecidableEq, Repr

/-- The container host state: an association of container names to statuses.  A name that
is not a key denotes an absent (never created or already removed) container. -/
def HostState := List (String × ContainerStatus)

instance : DecidableEq HostState := by
  unfold HostState; infer_instance

/-- Status of the named container, or `none` when absent. -/
def HostState.stat (h : HostState) (name : String) : Option ContainerStatus :=
  List.lookup name h

/-- Replace the status of the named container, leaving other containers untouched. -/
def HostState.setStatus (h : HostState) (name : String) (st : ContainerStatus) : HostState :=
  h.map (fun p => match name == p.1 with | true => (p.1, st) | false => p)

/-- Delete the named container from the host. -/
def HostState.removeEntry (h : HostState) (name : String) : HostState :=
  h.filter (fun p => !(p.1 == name))

/-- Daemon message for a kill request naming an absent container.  The daemon formats,
modelled here, are external to the repository; the client only ever inspects them through
`containsSubstr`. -/
def killMsgNotFound (name : String) : String :=
  "Cannot kill container: " ++ name ++ ": " ++ "No such container" ++ (": " ++ name)

/-- Daemon message for a kill request naming a container that is not running. -/
def killMsgNotRunning (name : String) : String :=
  "Cannot kill container: " ++ name ++ ": Container " ++ name ++ " " ++ "is not running"

/-- Daemon not-found message used by the remove, pause and unpause endpoints. -/
def notFoundMsg (name : String) : String :=
  "No such container" ++ (": " ++ name)

/-- Daemon message for pausing an already paused container. -/
def alreadyPausedMsg (name : String) : String :=
  "Container " ++ name ++ " " ++ "is already paused"

/-- Daemon message for pausing a container that is not running. -/
def pauseNotRunningMsg (name : String) : String :=
  "Container " ++ name ++ " " ++ "is not running"

/-- Daemon message for unpausing a container that is not paused. -/
def notPausedMsg (name : String) : String :=
  "Container " ++ name ++ " " ++ "is not paused"

/-- Daemon message for removing a container that is still running. -/
def removeRunningMsg (name : String) : String :=
  "You cannot remove a running container " ++ name ++
    ". Stop the container before attempting removal or force remove"

/-- The `ContainerKill` endpoint of the host (external collaborator): killing a running or
paused container stops it; a stopped container yields the is-not-running error; an absent
name yields the no-such-container error. -/
def dockerKill (h : HostState) (name : String) : HostState × Option String :=
  match h.stat name with
  | none => (h, some (killMsgNotFound name))
  | some .running => (h.setStatus name .stopped, none)
  | some .paused => (h.setStatus name .stopped, none)
  | some .stopped => (h, some (killMsgNotRunning name))

/-- The `ContainerRemove` endpoint of the host (external collaborator), without force:
only a stopped container can be removed. -/
def dockerRemove (h : HostState) (name : String) : HostState × Option String :=
  match h.stat name with
  | none => (h, some (notFoundMsg name))
  | some .running => (h, some (removeRunningMsg name))
  | some .paused => (h, some (removeRunningMsg name))
  | some .stopped => (h.removeEntry name, none)

/-- The `ContainerPause` endpoint of the host (external collaborator). -/
def dockerPause (h : HostState) (name : String) : HostState × Option String :=
  match h.stat name with
  | none => (h, some (notFoundMsg name))
  | some .paused => (h, some (alreadyPausedMsg name))
  | some .running => (h.setStatus name .paused, none)
  | some .stopped => (h, some (pauseNotRunningMsg name))

/-- The `ContainerUnpause` endpoint of the host (external collaborator). -/
def dockerUnpause (h : HostState) (name : String) : HostState × Option String :=
  match h.stat name with
  | none => (h, some (notFoundMsg name))
  | some .paused => (h.setStatus name .running, none)
  | some .running => (h, some (notPausedMsg name))
  | some .stopped => (h, some (notPausedMsg name))

/-- Outcome of the remove step of `Destroy` (docker.go lines 239 to 242): any remove error
is wrapped and fatal, success returns the container name. -/
def removeResult (name : String) : Option String → Except String String
  | some e => .error ("failed to remove the container: " ++ e)
  | none => .ok name

/-- Classification core of `generalClient.Destroy` (docker.go lines 221 to 243).  Given the
error from `ContainerKill` and the error from `ContainerRemove`, it returns whether the
remove call is performed, together with the result: an is-not-running kill error merely
falls through to remove, a no-such-container kill error is already-complete success with an
empty name, any other kill error is fatal before remove, and any remove error is fatal. -/
def destroyCore (name : String) (killErr removeErr : Option String) :
    Bool × Except String String :=
  match killErr with
  | none => (true, removeResult name removeErr)
  | some e =>
    if containsSubstr e "is not running" then (true, removeResult name removeErr)
    else if containsSubstr e "No such container" then (false, .ok "")
    else (false, .error ("failed to kill the container: " ++ e))

/-- `generalClient.Destroy` run against the modelled host: issue `ContainerKill`, classify,
and when classification falls through, issue `ContainerRemove`.  Returns the final host
state together with the result (returned container name or error). -/
def Destroy (h : HostState) (name : String) : HostState × Except String String :=
  let k := dockerKill h name
  let r := dockerRemove k.1 name
  match destroyCore name k.2 r.2 with
  | (true, res) => (r.1, res)
  | (false, res) => (k.1, res)

/-- Classification core of `generalClient.PauseContainer` (docker.go lines 175 to 192):
an already-paused error is success with an empty name, a no-such-container error is the
distinguished failure `container not found`, any other error is wrapped and fatal, and
success returns the container name. -/
def pauseCore (name : String) : Option String → Except String String
  | none => .ok name
  | some e =>
    if containsSubstr e "is already paused" then .ok ""
    else if containsSubstr e "No such container" then .error "container not found"
    else .error ("failed to pause container: " ++ e)

/-- `generalClient.PauseContainer` run against the modelled host. -/
def PauseContainer (h : HostState) (name : String) : HostState × Except String String :=
  let p := dockerPause h name
  (p.1, pauseCore name p.2)

/-- Classification core of `generalClient.ResumeContainer` (docker.go lines 194 to 211):
symmetric to pause, keyed on the is-not-paused error. -/
def resumeCore (name : String) : Option String → Except String String
  | none => .ok name
  | some e =>
    if containsSubstr e "is not paused" then .ok ""
    else if containsSubstr e "No such container" then .error "container not found"
    else .error ("failed to resume container: " ++ e)

/-- `generalClient.ResumeContainer` run against the modelled host. -/
def ResumeContainer (h : HostState) (name : String) : HostState × Except String String :=
  let p := dockerUnpause h name
  (p.1, resumeCore name p.2)

/-- Setting a status makes a present container report that status. -/
theorem stat_setStatus (h : HostState) (name : String) (s st : ContainerStatus)
    (hs : h.stat name = some s) : (h.setStatus name st).stat name = some st := by
  induction h with
  | nil => simp [HostState.stat, List.lookup] at hs
  | cons p t ih =>
    simp only [HostState.stat, List.lookup] at hs
    cases hk : name == p.1 with
    | true => simp [HostState.stat, HostState.setStatus, List.lookup, hk]
    | false =>
      simp only [hk] at hs
      simp only [HostState.stat, HostState.setStatus, List.map, List.lookup, hk]
      exact ih hs

/-- The daemon already-paused message contains the phrase the client matches on. -/
theorem alreadyPausedMsg_contains (name : String) :
    containsSubstr (alreadyPausedMsg name) "is already paused" = true := by
  unfold alreadyPausedMsg
  exact containsSubstr_append_right _ _

/-- The daemon not-paused message contains the phrase the client matches on. -/
theorem notPausedMsg_contains (name : String) :
    containsSubstr (notPausedMsg name) "is not paused" = true := by
  unfold notPausedMsg
  exact containsSubstr_append_right _ _

/-- The daemon not-found message contains the phrase the client matches on. -/
theorem notFoundMsg_contains (name : String) :
    containsSubstr (notFoundMsg name) "No such container" = true := by
  unfold notFoundMsg
  exact containsSubstr_append_left _ _

/-- The kill not-running message contains the phrase the client matches on. -/
theorem killMsgNotRunning_contains (name : String) :
    containsSubstr (killMsgNotRunning name) "is not running" = true := by
  unfold killMsgNotRunning
  exact containsSubstr_append_right _ _

/-- The kill not-found message contains the phrase the client matches on. -/
theorem killMsgNotFound_contains (name : String) :
    containsSubstr (killMsgNotFound name) "No such container" = true := by
  unfold killMsgNotFound
  exact containsSubstr_middle _ _ _

/-- C1: Destroy is idempotent.  It first issues Kill; a Kill error reporting the container
is not running falls through to Remove without being treated as an error; a Kill error
reporting the container does not exist returns success (empty name) without attempting
Remove; any other Kill failure is fatal before Remove is attempted; any Remove failure is
fatal.  Hence Destroy of an absent container succeeds and leaves the host unchanged (the
side condition rules out a container name that itself embeds the phrase `is not running`,
which no valid docker name can since names contain no spaces). -/
theorem destroy_idempotent_classification
    (name e e2 : String) (r : Option String) (h : HostState) :
    (containsSubstr e "is not running" = true →
      destroyCore name (some e) r = (true, removeResult name r)) ∧
    (containsSubstr e "is not running" = false →
      containsSubstr e "No such container" = true →
      destroyCore name (some e) r = (false, Except.ok "")) ∧
    (containsSubstr e "is not running" = false →
      containsSubstr e "No such container" = false →
      destroyCore name (some e) r =
        (false, Except.error ("failed to kill the container: " ++ e))) ∧
    (removeResult name (some e2) = Except.error ("failed to remove the container: " ++ e2)) ∧
    (h.stat name = none → containsSubstr (killMsgNotFound name) "is not running" = false →
      Destroy h name = (h, Except.ok "")) := by
  refine ⟨?_, ?_, ?_, rfl, ?_⟩
  · intro h1
    simp [destroyCore, h1]
  · intro h1 h2
    simp [destroyCore, h1, h2]
  · intro h1 h2
    simp [destroyCore, h1, h2]
  · intro habs hside
    simp [Destroy, dockerKill, habs, destroyCore, hside, killMsgNotFound_contains]

/-- Witness for C1: a not-running Kill error falls through to Remove, and Destroy of an
absent container succeeds without touching the host. -/
theorem destroy_idempotent_classification_witness :
    destroyCore "c0" (some (killMsgNotRunning "c0")) none = (true, removeResult "c0" none) ∧
    Destroy ([("other", ContainerStatus.running)] : HostState) "c0" =
      (([("other", ContainerStatus.running)] : HostState), Except.ok "") := by
  constructor
  · exact (destroy_idempotent_classification "c0" (killMsgNotRunning "c0") "" none []).1
      (killMsgNotRunning_contains "c0")
  · exact (destroy_idempotent_classification "c0" "" "" none _).2.2.2.2 (by decide) (by decide)

/-- C3: Pause of an already paused container is a success no-op; Resume of a not-paused
(running or stopped) container is a success no-op; Pause or Resume of an absent container
returns the distinguished error `container not found` rather than success; and any other
host failure of either operation is returned as a wrapped fatal error. -/
theorem pause_resume_classification (h : HostState) (name e : String) :
    (h.stat name = some .paused → PauseContainer h name = (h, Except.ok "")) ∧
    (h.stat name = some .running → ResumeContainer h name = (h, Except.ok "")) ∧
    (h.stat name = some .stopped → ResumeContainer h name = (h, Except.ok "")) ∧
    (h.stat name = none → containsSubstr (notFoundMsg name) "is already paused" = false →
      PauseContainer h name = (h, Except.error "container not found")) ∧
    (h.stat name = none → containsSubstr (notFoundMsg name) "is not paused" = false →
      ResumeContainer h name = (h, Except.error "container not found")) ∧
    (containsSubstr e "is already paused" = false →
      containsSubstr e "No such container" = false →
      pauseCore name (some e) = Except.error ("failed to pause container: " ++ e)) ∧
    (containsSubstr e "is not paused" = false →
      containsSubstr e "No such container" = false →
      resumeCore name (some e) = Except.error ("failed to resume container: " ++ e)) := by
  refine ⟨?_, ?_, ?_, ?_, ?_, ?_, ?_⟩
  · intro hp
    simp [PauseContainer, dockerPause, hp, pauseCore, alreadyPausedMsg_contains]
  · intro hr
    simp [ResumeContainer, dockerUnpause, hr, resumeCore, notPausedMsg_contains]
  · intro hs
    simp [ResumeContainer, dockerUnpause, hs, resumeCore, notPausedMsg_contains]
  · intro habs hside
    simp [PauseContainer, dockerPause, habs, pauseCore, hside, notFoundMsg_contains]
  · intro habs hside
    simp [ResumeContainer, dockerUnpause, habs, resumeCore, hside, notFoundMsg_contains]
  · intro h1 h2
    simp [pauseCore, h1, h2]
  · intro h1 h2
    simp [resumeCore, h1, h2]

/-- Witness for C3: pause of a paused container and resume of a running container are
success no-ops, pause of an absent name is the distinguished not-found error, and an
unrelated daemon failure is wrapped as fatal. -/
theorem pause_resume_classification_witness :
    PauseContainer ([("c1", ContainerStatus.paused)] : HostState) "c1" =
      (([("c1", ContainerStatus.paused)] : HostState), Except.ok "") ∧
    ResumeContainer ([("c1", ContainerStatus.running)] : HostState) "c1" =
      (([("c1", ContainerStatus.running)] : HostState), Except.ok "") ∧
    PauseContainer ([] : HostState) "c1" = (([] : HostState), Except.error "container not found") ∧
    pauseCore "c1" (some "dial unix: connection refused") =
      Except.error ("failed to pause container: " ++ "dial unix: connection refused") := by
  refine ⟨?_, ?_, ?_, ?_⟩
  · exact (pause_resume_classification _ "c1" "").1 (by decide)
  · exact (pause_resume_classification _ "c1" "").2.1 (by decide)
  · exact (pause_resume_classification _ "c1" "").2.2.2.1 (by decide) (by decide)
  · exact (pause_resume_classification [] "c1" "dial unix: connection refused").2.2.2.2.2.1
      (by decide) (by decide)

/-- C10: every success path the specification classifies as an idempotent no-op (pause of
an already paused container, resume of a not-paused container, destroy of an absent
container) returns the empty string as the container name, while a success that actually
changed host state returns the real container name; the empty-string result is never equal
to the real name for a non-empty name, so callers cannot recover the name from a no-op
success. -/
theorem noop_success_empty_name (h : HostState) (name : String) :
    (h.stat name = some .paused → (PauseContainer h name).2 = Except.ok "") ∧
    (h.stat name = some .running → (ResumeContainer h name).2 = Except.ok "") ∧
    (h.stat name = none → containsSubstr (killMsgNotFound name) "is not running" = false →
      (Destroy h name).2 = Except.ok "") ∧
    (h.stat name = some .running → (PauseContainer h name).2 = Except.ok name) ∧
    (h.stat name = some .paused → (ResumeContainer h name).2 = Except.ok name) ∧
    (h.stat name = some .stopped → (Destroy h name).2 = Except.ok name) ∧
    (h.stat name = some .running → (Destroy h name).2 = Except.ok name) ∧
    (name ≠ "" → (Except.ok "" : Except String String) ≠ Except.ok name) := by
  refine ⟨?_, ?_, ?_, ?_, ?_, ?_, ?_, ?_⟩
  · intro hp
    simp [PauseContainer, dockerPause, hp, pauseCore, alreadyPausedMsg_contains]
  · intro hr
    simp [ResumeContainer, dockerUnpause, hr, resumeCore, notPausedMsg_contains]
  · intro habs hside
    simp [Destroy, dockerKill, habs, destroyCore, hside, killMsgNotFound_contains]
  · intro hr
    simp [PauseContainer, dockerPause, hr, pauseCore]
  · intro hp
    simp [ResumeContainer, dockerUnpause, hp, resumeCore]
  · intro hs
    simp [Destroy, dockerKill, hs, dockerRemove, destroyCore, killMsgNotRunning_contains,
      removeResult]
  · intro hr
    have hst := stat_setStatus h name .running .stopped hr
    simp [Destroy, dockerKill, hr, dockerRemove, hst, destroyCore, removeResult]
  · intro hne heq
    injection heq with h2
    exact hne h2.symm

/-- Witness for C10: no-op successes return the empty name, state-changing successes
return the real name. -/
theorem noop_success_empty_name_witness :
    (PauseContainer ([("c2", ContainerStatus.paused)] : HostState) "c2").2 = Except.ok "" ∧
    (PauseContainer ([("c2", ContainerStatus.running)] : HostState) "c2").2 = Except.ok "c2" ∧
    (Destroy ([] : HostState) "c2").2 = Except.ok "" ∧
    (Destroy ([("c2", ContainerStatus.stopped)] : HostState) "c2").2 = Except.ok "c2" := by
  refine ⟨?_, ?_, ?_, ?_⟩
  · exact (noop_success_empty_name _ "c2").1 (by decide)
  · exact (noop_success_empty_name _ "c2").2.2.2.1 (by decide)
  · exact (noop_success_empty_name [] "c2").2.2.1 (by decide) (by decide)
  · exact (noop_success_empty_name _ "c2").2.2.2.2.2.1 (by decide)

/-- Terminal outcome of `generalClient.WaitUntilRunning` (docker.go lines 113 to 147). -/
inductive WaitOutcome where
  | success
  | pollFailed (msg : String)
  | timedOut
deriving DecidableEq, Repr

/-- The polling loop of `WaitUntilRunning` (docker.go lines 121 to 146), instrumented with
the index reached.  Time is discretised by the fixed polling interval: `obs i` is the
result of the `IsRunning` query made at the tick that fires after `i + 1` intervals, `diag`
is the result of the best-effort diagnostic `GetContainer` made when the deadline fires,
and the fuel argument is the number of ticks that fit before the deadline (for a timeout
shorter than one interval it is zero).  The returned index is the number of `IsRunning`
queries performed.  Mirroring the source: a tick whose query errors returns that error
wrapped, a tick observing the running state returns success, an unobserved deadline branch
inspects `diag` only for logging (both of its cases yield the timeout result) and never
lets a diagnostic failure escape. -/
def waitLoop (obs : Nat → Except String Bool) (diag : Except String String) :
    Nat → Nat → WaitOutcome × Nat
  | 0, i =>
    (match diag with
     | .error _ => .timedOut
     | .ok _ => .timedOut, i)
  | n + 1, i =>
    match obs i with
    | .error e => (.pollFailed ("failed to check if container is running: " ++ e), i + 1)
    | .ok true => (.success, i + 1)
    | .ok false => waitLoop obs diag n (i + 1)

/-- `generalClient.WaitUntilRunning` over the discretised model: run the polling loop from
tick zero with `maxTicks` ticks available before the deadline. -/
def waitUntilRunning (obs : Nat → Except String Bool) (diag : Except String String)
    (maxTicks : Nat) : WaitOutcome × Nat :=
  waitLoop obs diag maxTicks 0

/-- The loop never performs more queries than it has ticks of fuel. -/
theorem waitLoop_index_le (obs : Nat → Except String Bool) (diag : Except String String) :
    ∀ (n i : Nat), (waitLoop obs diag n i).2 ≤ i + n := by
  intro n
  induction n with
  | zero =>
    intro i
    cases diag <;> simp [waitLoop]
  | succ m ih =>
    intro i
    cases hobs : obs i with
    | error e => simp [waitLoop, hobs]
    | ok b =>
      cases b with
      | true => simp [waitLoop, hobs]
      | false =>
        have := ih (i + 1)
        simp [waitLoop, hobs]
        omega

/-- If every query from tick `i` on (within fuel) reports not running, the loop times out
after consuming all its fuel. -/
theorem waitLoop_all_false (obs : Nat → Except String Bool) (diag : Except String String) :
    ∀ (n i : Nat), (∀ j, i ≤ j → j < i + n → obs j = .ok false) →
      waitLoop obs diag n i = (.timedOut, i + n) := by
  intro n
  induction n with
  | zero =>
    intro i _
    cases diag <;> simp [waitLoop]
  | succ m ih =>
    intro i hall
    have h0 : obs i = .ok false := hall i (Nat.le_refl i) (by omega)
    have hrec := ih (i + 1) (fun j hj1 hj2 => hall j (by omega) (by omega))
    simp [waitLoop, h0, hrec]
    omega

/-- If the first tick at or after `i` whose query does not report not-running is tick `k`
within fuel, and that query reports running, the loop succeeds right there having made
exactly `k + 1` queries. -/
theorem waitLoop_first_true (obs : Nat → Except String Bool) (diag : Except String String) :
    ∀ (n i k : Nat), i ≤ k → k < i + n → (∀ j, i ≤ j → j < k → obs j = .ok false) →
      obs k = .ok true → waitLoop obs diag n i = (.success, k + 1) := by
  intro n
  induction n with
  | zero => intro i k h1 h2; omega
  | succ m ih =>
    intro i k h1 h2 hall htrue
    rcases Nat.eq_or_lt_of_le h1 with heq | hlt
    · subst heq
      simp [waitLoop, htrue]
    · have h0 : obs i = .ok false := hall i (Nat.le_refl i) hlt
      have hrec := ih (i + 1) k (by omega) (by omega)
        (fun j hj1 hj2 => hall j (by omega) hj2) htrue
      simp [waitLoop, h0, hrec]

/-- If the first tick at or after `i` whose query does not report not-running is tick `k`
within fuel, and that query fails, the loop aborts right there with the wrapped error,
having made exactly `k + 1` queries. -/
theorem waitLoop_first_error (obs : Nat → Except String Bool) (diag : Except String String) :
    ∀ (n i k : Nat) (e : String), i ≤ k → k < i + n →
      (∀ j, i ≤ j → j < k → obs j = .ok false) → obs k = .error e →
      waitLoop obs diag n i =
        (.pollFailed ("failed to check if container is running: " ++ e), k + 1) := by
  intro n
  induction n with
  | zero => intro i k e h1 h2; omega
  | succ m ih =>
    intro i k e h1 h2 hall herr
    rcases Nat.eq_or_lt_of_le h1 with heq | hlt
    · subst heq
      simp [waitLoop, herr]
    · have h0 : obs i = .ok false := hall i (Nat.le_refl i) hlt
      have hrec := ih (i + 1) k e (by omega) (by omega)
        (fun j hj1 hj2 => hall j (by omega) hj2) herr
      simp [waitLoop, h0, hrec]

/-- C4: over every sequence of poll observations, `WaitUntilRunning` performs its first
running-state query only after one polling interval elapses (with a deadline shorter than
one interval it performs no query at all and times out, even if the container is running);
it returns success at the first tick observing the running state, without consuming the
remaining ticks of the timeout; it times out when no tick before the deadline observes the
running state; and it never polls past the deadline (at most `maxTicks` queries, the number
of intervals that fit before the deadline). -/
theorem waitUntilRunning_first_tick_success_timeout
    (obs : Nat → Except String Bool) (diag : Except String String) (maxTicks k : Nat) :
    (waitUntilRunning obs diag 0 = (.timedOut, 0)) ∧
    (k < maxTicks → (∀ j, j < k → obs j = .ok false) → obs k = .ok true →
      waitUntilRunning obs diag maxTicks = (.success, k + 1)) ∧
    ((∀ j, j < maxTicks → obs j = .ok false) →
      waitUntilRunning obs diag maxTicks = (.timedOut, maxTicks)) ∧
    ((waitUntilRunning obs diag maxTicks).2 ≤ maxTicks) := by
  refine ⟨?_, ?_, ?_, ?_⟩
  · cases diag <;> simp [waitUntilRunning, waitLoop]
  · intro hk hall htrue
    exact waitLoop_first_true obs diag maxTicks 0 k (Nat.zero_le k) (by omega)
      (fun j _ hj => hall j hj) htrue
  · intro hall
    have := waitLoop_all_false obs diag maxTicks 0 (fun j _ hj => hall j (by omega))
    simpa using this
  · simpa using waitLoop_index_le obs diag maxTicks 0

/-- Witness for C4: with a deadline of three ticks and a container first observed running
at the second tick, the wait succeeds after exactly two queries; with the container never
running it times out after exactly three; with a sub-interval deadline it makes no query. -/
theorem waitUntilRunning_first_tick_success_timeout_witness :
    waitUntilRunning (fun i => .ok (i ≥ 1)) (.ok "state") 0 = (.timedOut, 0) ∧
    waitUntilRunning (fun i => .ok (i ≥ 1)) (.ok "state") 3 = (.success, 2) ∧
    waitUntilRunning (fun _ => .ok false) (.ok "state") 3 = (.timedOut, 3) := by
  refine ⟨?_, ?_, ?_⟩
  · exact (waitUntilRunning_first_tick_success_timeout (fun i => .ok (i ≥ 1))
      (.ok "state") 0 0).1
  · exact (waitUntilRunning_first_tick_success_timeout (fun i => .ok (i ≥ 1))
      (.ok "state") 3 1).2.1 (by omega)
      (by intro j hj; have hj0 : j = 0 := by omega
          subst hj0; rfl)
      rfl
  · exact (waitUntilRunning_first_tick_success_timeout (fun _ => .ok false)
      (.ok "state") 3 0).2.2.1 (fun j _ => rfl)

/-- C5: a failing running-state query aborts the wait immediately with that error wrapped;
the failed query is never retried on a later tick (exactly `k + 1` queries are made when
tick `k` fails).  When instead the deadline elapses, the one best-effort diagnostic
inspection never changes the outcome: the result is the same for every diagnostic result,
successful or failing, and with error-free not-running polls it is the timeout outcome
whatever the diagnostic reports. -/
theorem waitUntilRunning_poll_error_aborts_diag_swallowed
    (obs : Nat → Except String Bool) (diag diag2 : Except String String)
    (maxTicks k : Nat) (e : String) :
    (k < maxTicks → (∀ j, j < k → obs j = .ok false) → obs k = .error e →
      waitUntilRunning obs diag maxTicks =
        (.pollFailed ("failed to check if container is running: " ++ e), k + 1)) ∧
    (waitUntilRunning obs diag maxTicks = waitUntilRunning obs diag2 maxTicks) ∧
    ((∀ j, j < maxTicks → obs j = .ok false) →
      waitUntilRunning obs diag maxTicks = (.timedOut, maxTicks)) := by
  refine ⟨?_, ?_, ?_⟩
  · intro hk hall herr
    exact waitLoop_first_error obs diag maxTicks 0 k e (Nat.zero_le k) (by omega)
      (fun j _ hj => hall j hj) herr
  · have hgen : ∀ (n i : Nat), waitLoop obs diag n i = waitLoop obs diag2 n i := by
      intro n
      induction n with
      | zero =>
        intro i
        cases diag <;> cases diag2 <;> simp [waitLoop]
      | succ m ih =>
        intro i
        cases hobs : obs i with
        | error e2 => simp [waitLoop, hobs]
        | ok b => cases b <;> simp [waitLoop, hobs, ih]
    exact hgen maxTicks 0
  · intro hall
    have := waitLoop_all_false obs diag maxTicks 0 (fun j _ hj => hall j (by omega))
    simpa using this

/-- Witness for C5: a query failure at the second tick aborts after exactly two queries
with the wrapped error, and a failing diagnostic inspection leaves the timeout outcome
unchanged. -/
theorem waitUntilRunning_poll_error_aborts_diag_swallowed_witness :
    waitUntilRunning (fun i => if i = 1 then .error "EOF" else .ok false) (.ok "state") 5 =
      (.pollFailed ("failed to check if container is running: " ++ "EOF"), 2) ∧
    waitUntilRunning (fun _ => .ok false) (.error "inspect failed") 2 =
      waitUntilRunning (fun _ => .ok false) (.ok "state") 2 ∧
    waitUntilRunning (fun _ => .ok false) (.error "inspect failed") 2 = (.timedOut, 2) := by
  refine ⟨?_, ?_, ?_⟩
  · exact (waitUntilRunning_poll_error_aborts_diag_swallowed
      (fun i => if i = 1 then .error "EOF" else .ok false) (.ok "state") (.ok "state")
      5 1 "EOF").1 (by omega)
      (by intro j hj; have hj0 : j = 0 := by omega
          subst hj0; rfl)
      rfl
  · exact (waitUntilRunning_poll_error_aborts_diag_swallowed (fun _ => .ok false)
      (.error "inspect failed") (.ok "state") 2 0 "").2.1
  · exact (waitUntilRunning_poll_error_aborts_diag_swallowed (fun _ => .ok false)
      (.error "inspect failed") (.ok "state") 2 0 "").2.2 (fun j _ => rfl)

/-- Go `strings.Split` on a single-character separator, over character lists: splits at
every occurrence; adjacent or boundary separators yield empty segments, and the empty
input yields one empty segment. -/
def splitChar (c : Char) : List Char → List (List Char)
  | [] => [[]]
  | a :: rest =>
    match splitChar c rest with
    | [] => [[]]
    | g :: gs => if a = c then [] :: g :: gs else (a :: g) :: gs

/-- Go `strings.Split(o, ":")` as used by StartEnvd on mount option strings. -/
def splitOnColon (s : String) : List String :=
  (splitChar ':' s.toList).map (fun l => ⟨l⟩)

/-- A bind mount entry (docker `mount.Mount` with `mount.TypeBind`). -/
structure MountSpec where
  mountType : String
  source : String
  target : String
deriving DecidableEq, Repr

/-- One host-side binding of a container port (`nat.PortBinding`). -/
structure PortBinding where
  hostIP : String
  hostPort : String
deriving DecidableEq, Repr

/-- A device request (`container.DeviceRequest`). -/
structure DeviceRequest where
  driver : String
  capabilities : List (List String)
  count : Int
deriving DecidableEq, Repr

/-- The parts of docker `container.Config` that StartEnvd populates. -/
structure ContainerConfig where
  image : String
  user : String
  exposedPorts : List String
  workingDir : String
  labels : List (String × String)
deriving DecidableEq, Repr

/-- The parts of docker `container.HostConfig` that StartEnvd populates.  `portBindings`
models the `nat.PortMap`, keyed by container-side port; the three keys used are pairwise
distinct constants, so the insertion-ordered association list is faithful. -/
structure HostConfig where
  portBindings : List (String × List PortBinding)
  mounts : List MountSpec
  deviceRequests : List DeviceRequest
deriving DecidableEq, Repr

/-- Modelled from the spec: the fixed container-side ssh port constant
`envdconfig.SSHPortInContainer` (pkg/config, not under src/). -/
def sshPortInContainer : Int := 2222

/-- Modelled from the spec: the fixed container-side jupyter port constant
`envdconfig.JupyterPortInContainer` (pkg/config, not under src/). -/
def jupyterPortInContainer : Int := 8888

/-- Modelled from the spec: the fixed container-side rstudio port constant
`envdconfig.RStudioServerPortInContainer` (pkg/config, not under src/). -/
def rstudioPortInContainer : Int := 8787

/-- Go `fmt.Sprintf` of a port into a `nat.Port` key, as in docker.go line 362. -/
def portKey (p : Int) : String := toString p ++ "/tcp"

/-- The loopback host IP constant of docker.go line 45. -/
def localhost : String := "127.0.0.1"

/-- Modelled from the spec: `fileutil.Base` (pkg/util/fileutil, not under src/) returns
the base name of the build-context path, that is the last path element after stripping
trailing separators, with Go path-base conventions for the empty and root paths. -/
def fileutilBase (path : String) : String :=
  let comps := (splitChar '/' path.toList).filter (fun l => !l.isEmpty)
  match comps.getLast? with
  | some b => ⟨b⟩
  | none =>
    match path.toList with
    | '/' :: _ => "/"
    | _ => "."

/-- Go `filepath.Join` restricted to its use in docker.go line 325: an absolute clean
prefix joined with a single clean component, including the cleaning of the degenerate
component values `fileutilBase` can produce. -/
def pathJoin (a b : String) : String :=
  if b = "" ∨ b = "." ∨ b = "/" then a else a ++ "/" ++ b

/-- The mount option loop of StartEnvd (docker.go lines 328 to 344): each entry is split
on every colon and must yield exactly two segments (which may be empty), else the call
fails naming the offending entry; each accepted entry becomes one bind mount. -/
def parseMounts : List String → Except String (List MountSpec)
  | [] => .ok []
  | o :: rest =>
    match splitOnColon o with
    | [src, tgt] =>
      match parseMounts rest with
      | .ok ms => .ok (⟨"bind", src, tgt⟩ :: ms)
      | .error e => .error e
    | _ => .error ("Invalid mount options " ++ o)

/-- The bind mount an accepted option string denotes. -/
def mountOfOption (o : String) : MountSpec :=
  ⟨"bind", (splitOnColon o).getD 0 "", (splitOnColon o).getD 1 ""⟩

/-- The mount-option validity condition exactly as the specification words it (stated for
comparison with the source embedding `parseMounts`, which is the authority): the entry
splits on the first colon into exactly two non-empty segments. -/
def specValidMountOption (o : String) : Bool :=
  let l := o.toList
  let before := l.takeWhile (fun a => a != ':')
  match l.dropWhile (fun a => a != ':') with
  | [] => false
  | _ :: after => !before.isEmpty && !after.isEmpty

/-- `deviceRequests` (docker.go lines 500 to 517): one nvidia request with the fixed
eight-entry capability set and the requested device count. -/
def deviceRequests (count : Int) : List DeviceRequest :=
  [{ driver := "nvidia",
     capabilities := [["gpu"], ["nvidia"], ["compute"], ["compat32"], ["graphics"],
                      ["utility"], ["video"], ["display"]],
     count := count }]

/-- Modelled from the spec: the `labels` function (pkg/lang/ir, not under src/) records
the container name and the assigned host ports for ssh, jupyter and rstudio so that later
inspection of the container alone recovers its network topology.  The exact label keys are
not specified; representative keys are used. -/
def labels (name : String) (sshPort jupyterPort rstudioPort : Int) :
    List (String × String) :=
  [("envd.name", name), ("envd.ssh.port", toString sshPort),
   ("envd.jupyter.port", toString jupyterPort), ("envd.rstudio.port", toString rstudioPort)]

/-- Assembly of the creation specification from the already-resolved inputs: the working
directory under the fixed home prefix, user mounts followed by the build-context mount,
the ssh binding followed by the optional jupyter and rstudio bindings (each on the
loopback IP), the exposed-port marks for declared services, the device requests when GPU
is enabled, and the topology labels. -/
def assembleSpec (tag name buildContext : String) (gpuEnabled : Bool)
    (numGPUs sshPortInHost : Int) (userMounts : List MountSpec)
    (jupyterPort rstudioPort : Option Int) : ContainerConfig × HostConfig :=
  let base := pathJoin "/home/envd" (fileutilBase buildContext)
  ({ image := tag, user := "envd",
     exposedPorts :=
       (match jupyterPort with
        | some _ => [portKey jupyterPortInContainer]
        | none => []) ++
       (match rstudioPort with
        | some _ => [portKey rstudioPortInContainer]
        | none => []),
     workingDir := base,
     labels := labels name sshPortInHost (jupyterPort.getD 0) (rstudioPort.getD 0) },
   { portBindings :=
       [(portKey sshPortInContainer, [PortBinding.mk localhost (toString sshPortInHost)])] ++
       (match jupyterPort with
        | some p => [(portKey jupyterPortInContainer, [PortBinding.mk localhost (toString p)])]
        | none => []) ++
       (match rstudioPort with
        | some p => [(portKey rstudioPortInContainer, [PortBinding.mk localhost (toString p)])]
        | none => []),
     mounts := userMounts ++ [⟨"bind", buildContext, base⟩],
     deviceRequests := if gpuEnabled then deviceRequests numGPUs else [] })

/-- The specification-assembly phase of `generalClient.StartEnvd` (docker.go lines 309 to
416, up to the `ContainerCreate` call): validate and translate the mount options, allocate
one free host port for jupyter and one for rstudio when the graph declares those services
(`hasJupyter` and `hasRStudio` model `g.JupyterConfig != nil` and
`g.RStudioServerConfig != nil`), and assemble the container creation specification.
`alloc i` is the result of the `netutil.GetFreePort` call of index `i`; its failure is
wrapped exactly as in the source. -/
def buildEnvdSpec (tag name buildContext : String) (gpuEnabled : Bool) (numGPUs : Int)
    (sshPortInHost : Int) (hasJupyter hasRStudio : Bool) (mountOptionsStr : List String)
    (alloc : Nat → Except String Int) : Except String (ContainerConfig × HostConfig) :=
  match parseMounts mountOptionsStr with
  | .error e => .error e
  | .ok userMounts =>
    match (if hasJupyter then Except.map some (alloc 0) else .ok none) with
    | .error e => .error ("failed to get a free port: " ++ e)
    | .ok jupyterPort =>
      match (if hasRStudio then Except.map some (alloc (if hasJupyter then 1 else 0))
             else .ok none) with
      | .error e => .error ("failed to get a free port: " ++ e)
      | .ok rstudioPort =>
        .ok (assembleSpec tag name buildContext gpuEnabled numGPUs sshPortInHost
          userMounts jupyterPort rstudioPort)

/-- All host-side ports of all port bindings of a specification, in binding order. -/
def specHostPorts (hc : HostConfig) : List String :=
  hc.portBindings.foldr (fun pb acc => pb.2.map PortBinding.hostPort ++ acc) []

/-- Error handling of the `ContainerStart` call in StartEnvd (docker.go lines 427 to 436):
a start failure whose cause contains `port is already allocated` is surfaced as the
distinguished port-conflict message, every other start failure is wrapped as the generic
fatal message. -/
def classifyStartErr (e : String) : String :=
  if containsSubstr e "port is already allocated" then
    "jupyter port is already allocated in the host"
  else "failed to run the container: " ++ e

/-- Inversion of a successful build: the mount options parsed, each declared service got a
port from the allocator (none when undeclared), and the result is the assembly of those
resolved inputs. -/
theorem buildEnvdSpec_ok_inv (tag name buildContext : String) (gpuEnabled : Bool)
    (numGPUs sshPortInHost : Int) (hasJupyter hasRStudio : Bool)
    (mountOptionsStr : List String) (alloc : Nat → Except String Int)
    (cfg : ContainerConfig) (hc : HostConfig)
    (hok : buildEnvdSpec tag name buildContext gpuEnabled numGPUs sshPortInHost hasJupyter
      hasRStudio mountOptionsStr alloc = .ok (cfg, hc)) :
    ∃ (userMounts : List MountSpec) (jupyterPort rstudioPort : Option Int),
      parseMounts mountOptionsStr = .ok userMounts ∧
      (if hasJupyter then Except.map some (alloc 0) else .ok none) = .ok jupyterPort ∧
      (if hasRStudio then Except.map some (alloc (if hasJupyter then 1 else 0))
       else .ok none) = .ok rstudioPort ∧
      (cfg, hc) = assembleSpec tag name buildContext gpuEnabled numGPUs sshPortInHost
        userMounts jupyterPort rstudioPort := by
  unfold buildEnvdSpec at hok
  cases hpm : parseMounts mountOptionsStr with
  | error e => rw [hpm] at hok; exact absurd hok (by simp)
  | ok userMounts =>
    rw [hpm] at hok
    cases hj : (if hasJupyter then Except.map some (alloc 0) else Except.ok none) with
    | error e => rw [hj] at hok; exact absurd hok (by simp)
    | ok jupyterPort =>
      rw [hj] at hok
      cases hr : (if hasRStudio then Except.map some (alloc (if hasJupyter then 1 else 0))
                  else Except.ok none) with
      | error e => rw [hr] at hok; exact absurd hok (by simp)
      | ok rstudioPort =>
        rw [hr] at hok
        refine ⟨userMounts, jupyterPort, rstudioPort, rfl, rfl, rfl, ?_⟩
        injection hok with hpair
        exact hpair.symm

/-- C7: for every requested device count at least zero, a build with GPU enabled produces
exactly one device request, with driver nvidia, the fixed eight-entry capability set, and
the requested count; a build with GPU disabled produces zero device requests. -/
theorem gpu_device_requests_exact (tag name buildContext : String) (gpuEnabled : Bool)
    (numGPUs sshPortInHost : Int) (hasJupyter hasRStudio : Bool) (opts : List String)
    (alloc : Nat → Except String Int) (cfg : ContainerConfig) (hc : HostConfig)
    (hnn : 0 ≤ numGPUs)
    (hok : buildEnvdSpec tag name buildContext gpuEnabled numGPUs sshPortInHost hasJupyter
      hasRStudio opts alloc = .ok (cfg, hc)) :
    (gpuEnabled = true → hc.deviceRequests =
      [{ driver := "nvidia",
         capabilities := [["gpu"], ["nvidia"], ["compute"], ["compat32"], ["graphics"],
                          ["utility"], ["video"], ["display"]],
         count := numGPUs }]) ∧
    (gpuEnabled = false → hc.deviceRequests = []) := by
  obtain ⟨um, jp, rp, _, _, _, heq⟩ := buildEnvdSpec_ok_inv tag name buildContext gpuEnabled
    numGPUs sshPortInHost hasJupyter hasRStudio opts alloc cfg hc hok
  have h2 : hc = (assembleSpec tag name buildContext gpuEnabled numGPUs sshPortInHost
      um jp rp).2 := congrArg Prod.snd heq
  constructor
  · intro hg
    subst hg
    rw [h2]
    simp [assembleSpec, deviceRequests]
  · intro hg
    subst hg
    rw [h2]
    simp [assembleSpec]

/-- Witness for C7: a GPU-enabled build with two devices carries exactly that request, and
the same build with GPU disabled carries none. -/
theorem gpu_device_requests_exact_witness :
    (assembleSpec "img" "c5" "/proj" true 2 2222 [] none none).2.deviceRequests =
      [{ driver := "nvidia",
         capabilities := [["gpu"], ["nvidia"], ["compute"], ["compat32"], ["graphics"],
                          ["utility"], ["video"], ["display"]],
         count := 2 }] ∧
    (assembleSpec "img" "c5" "/proj" false 2 2222 [] none none).2.deviceRequests = [] := by
  constructor
  · exact (gpu_device_requests_exact "img" "c5" "/proj" true 2 2222 false false []
      (fun _ => .ok 9000) _ _ (by omega) rfl).1 rfl
  · exact (gpu_device_requests_exact "img" "c5" "/proj" false 2 2222 false false []
      (fun _ => .ok 9000) _ _ (by omega) rfl).2 rfl

/-- C9: the working directory of a successful build is the build-context base name joined under
the fixed home prefix, and the final mount of the specification (always present) binds the
build context to that working directory. -/
theorem workdir_is_context_base_and_last_mount (tag name buildContext : String)
    (gpuEnabled : Bool) (numGPUs sshPortInHost : Int) (hasJupyter hasRStudio : Bool)
    (opts : List String) (alloc : Nat → Except String Int)
    (cfg : ContainerConfig) (hc : HostConfig)
    (hok : buildEnvdSpec tag name buildContext gpuEnabled numGPUs sshPortInHost hasJupyter
      hasRStudio opts alloc = .ok (cfg, hc)) :
    cfg.workingDir = pathJoin "/home/envd" (fileutilBase buildContext) ∧
    hc.mounts.getLast? = some ⟨"bind", buildContext, cfg.workingDir⟩ := by
  obtain ⟨um, jp, rp, _, _, _, heq⟩ := buildEnvdSpec_ok_inv tag name buildContext gpuEnabled
    numGPUs sshPortInHost hasJupyter hasRStudio opts alloc cfg hc hok
  have h1 : cfg = (assembleSpec tag name buildContext gpuEnabled numGPUs sshPortInHost
      um jp rp).1 := congrArg Prod.fst heq
  have h2 : hc = (assembleSpec tag name buildContext gpuEnabled numGPUs sshPortInHost
      um jp rp).2 := congrArg Prod.snd heq
  subst h1
  subst h2
  refine ⟨rfl, ?_⟩
  have hm : (assembleSpec tag name buildContext gpuEnabled numGPUs sshPortInHost
      um jp rp).2.mounts =
      um ++ [⟨"bind", buildContext, pathJoin "/home/envd" (fileutilBase buildContext)⟩] := rfl
  rw [hm]
  exact List.getLast?_concat _

/-- Witness for C9: the end-to-end scenario of the specification.  Building tag `img`,
name `c1`, build context `/proj`, no GPU, ssh host port 2222, no declared services and one
user mount option yields working directory `/home/envd/proj`, exactly the user mount
followed by the build-context mount, one ssh binding to loopback port 2222, no exposed
extra ports and no device requests; and the final mount targets the working directory. -/
theorem workdir_is_context_base_and_last_mount_witness :
    (buildEnvdSpec "img" "c1" "/proj" false 0 2222 false false ["/host/data:/data"]
        (fun _ => .error "unused")).map
      (fun p => (p.1.workingDir, p.2.mounts, p.2.portBindings, p.1.exposedPorts,
                 p.2.deviceRequests)) =
      .ok ("/home/envd/proj",
           [({ mountType := "bind", source := "/host/data", target := "/data" } : MountSpec),
            { mountType := "bind", source := "/proj", target := "/home/envd/proj" }],
           [("2222/tcp", [({ hostIP := "127.0.0.1", hostPort := "2222" } : PortBinding)])],
           ([] : List String), ([] : List DeviceRequest)) ∧
    [({ mountType := "bind", source := "/host/data", target := "/data" } : MountSpec),
     { mountType := "bind", source := "/proj", target := "/home/envd/proj" }].getLast? =
      some ({ mountType := "bind", source := "/proj",
              target := "/home/envd/proj" } : MountSpec) := by
  constructor
  · rfl
  · exact (workdir_is_context_base_and_last_mount "img" "c1" "/proj" false 0 2222 false
      false ["/host/data:/data"] (fun _ => .error "unused") _ _ rfl).2

/-- A successful mount-option parse yields exactly the mounts the options denote. -/
theorem parseMounts_ok_map : ∀ (opts : List String) (ms : List MountSpec),
    parseMounts opts = .ok ms → ms = opts.map mountOfOption := by
  intro opts
  induction opts with
  | nil =>
    intro ms h
    simp [parseMounts] at h
    simp [h.symm]
  | cons o rest ih =>
    intro ms h
    unfold parseMounts at h
    cases hsp : splitOnColon o with
    | nil => rw [hsp] at h; simp at h
    | cons a t =>
      cases t with
      | nil => rw [hsp] at h; simp at h
      | cons b t2 =>
        cases t2 with
        | nil =>
          rw [hsp] at h
          cases hr : parseMounts rest with
          | error e => rw [hr] at h; simp at h
          | ok ms2 =>
            rw [hr] at h
            simp only [Except.ok.injEq] at h
            rw [← h, ih ms2 hr]
            simp [mountOfOption, hsp]
        | cons c t3 => rw [hsp] at h; simp at h

/-- When every mount option splits on its colons into exactly two segments, parsing
succeeds with exactly the denoted mounts. -/
theorem parseMounts_all_valid : ∀ (opts : List String),
    (∀ x ∈ opts, (splitOnColon x).length = 2) →
    parseMounts opts = .ok (opts.map mountOfOption) := by
  intro opts
  induction opts with
  | nil => intro _; rfl
  | cons o rest ih =>
    intro hall
    have hlen : (splitOnColon o).length = 2 := hall o (List.mem_cons_self o rest)
    cases hsp : splitOnColon o with
    | nil => rw [hsp] at hlen; simp at hlen
    | cons a t =>
      cases t with
      | nil => rw [hsp] at hlen; simp at hlen
      | cons b t2 =>
        cases t2 with
        | nil =>
          have hrest := ih (fun x hx => hall x (List.mem_cons_of_mem o hx))
          unfold parseMounts
          rw [hsp, hrest]
          simp [mountOfOption, hsp]
        | cons c t3 => rw [hsp] at hlen; simp at hlen

/-- Parsing fails at the first mount option that does not split into exactly two segments,
naming that option. -/
theorem parseMounts_first_invalid : ∀ (pre : List String) (o : String) (post : List String),
    (∀ x ∈ pre, (splitOnColon x).length = 2) → (splitOnColon o).length ≠ 2 →
    parseMounts (pre ++ o :: post) = .error ("Invalid mount options " ++ o) := by
  intro pre
  induction pre with
  | nil =>
    intro o post _ hbad
    cases hsp : splitOnColon o with
    | nil => simp [parseMounts, hsp]
    | cons a t =>
      cases t with
      | nil => simp [parseMounts, hsp]
      | cons b t2 =>
        cases t2 with
        | nil => rw [hsp] at hbad; simp at hbad
        | cons c t3 => simp [parseMounts, hsp]
  | cons p pre2 ih =>
    intro o post hall hbad
    have hlen : (splitOnColon p).length = 2 := hall p (List.mem_cons_self p pre2)
    have hrec := ih o post (fun x hx => hall x (List.mem_cons_of_mem p hx)) hbad
    cases hsp : splitOnColon p with
    | nil => rw [hsp] at hlen; simp at hlen
    | cons a t =>
      cases t with
      | nil => rw [hsp] at hlen; simp at hlen
      | cons b t2 =>
        cases t2 with
        | nil =>
          show parseMounts (p :: (pre2 ++ o :: post)) = _
          unfold parseMounts
          rw [hsp, hrec]
        | cons c t3 => rw [hsp] at hlen; simp at hlen

/-- C2 (amended): a mount option is accepted iff splitting it on every colon yields
exactly two segments, which may be empty (it contains exactly one colon); the call fails
naming the first offending entry; each accepted entry becomes one bind mount with the
segment before the colon as source and the segment after it as target; and a successful
build carries exactly the user mounts, in order, followed by the build-context mount. -/
theorem mount_options_exactly_one_colon_split
    (opts pre post : List String) (o tag name buildContext : String) (gpuEnabled : Bool)
    (numGPUs sshPortInHost : Int) (hasJupyter hasRStudio : Bool)
    (alloc : Nat → Except String Int) (cfg : ContainerConfig) (hc : HostConfig) :
    ((∀ x ∈ opts, (splitOnColon x).length = 2) →
      parseMounts opts = .ok (opts.map mountOfOption)) ∧
    ((∀ x ∈ pre, (splitOnColon x).length = 2) → (splitOnColon o).length ≠ 2 →
      parseMounts (pre ++ o :: post) = .error ("Invalid mount options " ++ o)) ∧
    (buildEnvdSpec tag name buildContext gpuEnabled numGPUs sshPortInHost hasJupyter
        hasRStudio opts alloc = .ok (cfg, hc) →
      hc.mounts = opts.map mountOfOption ++
        [⟨"bind", buildContext, pathJoin "/home/envd" (fileutilBase buildContext)⟩]) := by
  refine ⟨parseMounts_all_valid opts, parseMounts_first_invalid pre o post, ?_⟩
  intro hok
  obtain ⟨um, jp, rp, hpm, _, _, heq⟩ := buildEnvdSpec_ok_inv tag name buildContext
    gpuEnabled numGPUs sshPortInHost hasJupyter hasRStudio opts alloc cfg hc hok
  have h2 : hc = (assembleSpec tag name buildContext gpuEnabled numGPUs sshPortInHost
      um jp rp).2 := congrArg Prod.snd heq
  subst h2
  have hum : um = opts.map mountOfOption := parseMounts_ok_map opts um hpm
  subst hum
  rfl

/-- Witness for C2 (amended): the valid option of the end-to-end scenario parses into its
bind mount, and an option with two colons fails naming the entry. -/
theorem mount_options_exactly_one_colon_split_witness :
    parseMounts ["/host/data:/data"] =
      .ok [{ mountType := "bind", source := "/host/data", target := "/data" }] ∧
    parseMounts ["ok:fine", "a:b:c"] = .error ("Invalid mount options " ++ "a:b:c") := by
  constructor
  · exact (mount_options_exactly_one_colon_split ["/host/data:/data"] [] [] "" "" "" ""
      false 0 0 false false (fun _ => .ok 0)
      (assembleSpec "" "" "" false 0 0 [] none none).1
      (assembleSpec "" "" "" false 0 0 [] none none).2).1 (by decide)
  · exact (mount_options_exactly_one_colon_split [] ["ok:fine"] [] "a:b:c" "" "" ""
      false 0 0 false false (fun _ => .ok 0)
      (assembleSpec "" "" "" false 0 0 [] none none).1
      (assembleSpec "" "" "" false 0 0 [] none none).2).2.1 (by decide) (by decide)

/-- C2 counterexample: the claimed validity condition (split on the first colon into two
non-empty segments) disagrees with the code.  The entry `a:b:c` satisfies the claimed
condition yet the build rejects it, and the entry consisting of a single colon violates
the claimed condition yet the build accepts it as a bind mount with empty source and
target. -/
theorem mount_option_validation_counterexample :
    specValidMountOption "a:b:c" = true ∧
    buildEnvdSpec "img" "c3" "/proj" false 0 2222 false false ["a:b:c"]
      (fun _ => .ok 9000) = .error ("Invalid mount options " ++ "a:b:c") ∧
    specValidMountOption ":" = false ∧
    (buildEnvdSpec "img" "c3" "/proj" false 0 2222 false false [":"]
        (fun _ => .ok 9000)).map (fun p => p.2.mounts) =
      .ok [{ mountType := "bind", source := "", target := "" },
           { mountType := "bind", source := "/proj", target := "/home/envd/proj" }] := by
  exact ⟨by decide, rfl, by decide, rfl⟩

/-- C6 (amended): the build performs no duplicate-host-port check.  With both jupyter and
rstudio declared, a successful build carries exactly three bindings whose host ports are
the caller-supplied ssh port and the two allocator results in order, so the host ports are
pairwise distinct exactly when those three values render to pairwise distinct port
strings; nothing fails when the allocator repeats a port. -/
theorem port_bindings_reflect_allocations
    (tag name buildContext : String) (gpuEnabled : Bool) (numGPUs sshPortInHost : Int)
    (opts : List String) (alloc : Nat → Except String Int) (jp0 rp0 : Int)
    (cfg : ContainerConfig) (hc : HostConfig)
    (hj : alloc 0 = .ok jp0) (hr : alloc 1 = .ok rp0)
    (hok : buildEnvdSpec tag name buildContext gpuEnabled numGPUs sshPortInHost true true
      opts alloc = .ok (cfg, hc)) :
    specHostPorts hc = [toString sshPortInHost, toString jp0, toString rp0] ∧
    (toString sshPortInHost ≠ toString jp0 → toString sshPortInHost ≠ toString rp0 →
      toString jp0 ≠ toString rp0 → (specHostPorts hc).Nodup) := by
  obtain ⟨um, jp, rp, hpm, hjj, hrr, heq⟩ := buildEnvdSpec_ok_inv tag name buildContext
    gpuEnabled numGPUs sshPortInHost true true opts alloc cfg hc hok
  have hjj2 : Except.map some (alloc 0) = Except.ok jp := hjj
  have hrr2 : Except.map some (alloc 1) = Except.ok rp := hrr
  rw [hj] at hjj2
  rw [hr] at hrr2
  have hjp : jp = some jp0 := (Except.ok.inj hjj2).symm
  have hrp : rp = some rp0 := (Except.ok.inj hrr2).symm
  subst hjp
  subst hrp
  have h2 : hc = (assembleSpec tag name buildContext gpuEnabled numGPUs sshPortInHost
      um (some jp0) (some rp0)).2 := congrArg Prod.snd heq
  subst h2
  have hports : specHostPorts (assembleSpec tag name buildContext gpuEnabled numGPUs
      sshPortInHost um (some jp0) (some rp0)).2 =
      [toString sshPortInHost, toString jp0, toString rp0] := rfl
  refine ⟨hports, ?_⟩
  intro h1 h2 h3
  rw [hports]
  simp only [List.nodup_cons, List.mem_cons, List.mem_singleton, List.not_mem_nil,
    not_false_eq_true, List.nodup_nil, and_true]
  tauto

/-- Witness for C6 (amended): distinct allocator results and a distinct ssh port yield
three pairwise distinct host ports. -/
theorem port_bindings_reflect_allocations_witness :
    specHostPorts
      (assembleSpec "img" "c6" "/proj" false 0 2222 [] (some 41000) (some 41001)).2 =
      ["2222", "41000", "41001"] ∧
    (specHostPorts
      (assembleSpec "img" "c6" "/proj" false 0 2222 [] (some 41000) (some 41001)).2).Nodup := by
  have h := port_bindings_reflect_allocations "img" "c6" "/proj" false 0 2222 []
    (fun i => if i = 0 then .ok 41000 else .ok 41001) 41000 41001 _ _ rfl rfl rfl
  exact ⟨h.1, h.2 (by decide) (by decide) (by decide)⟩

/-- C6 counterexample: when the free-port allocator returns the same port for jupyter and
rstudio, the build succeeds with two bindings sharing host port 5000 — it neither fails
with a resource-allocation error nor avoids the duplicate. -/
theorem port_bindings_duplicate_counterexample :
    (buildEnvdSpec "img" "c4" "/proj" false 0 2222 true true [] (fun _ => .ok 5000)).map
      (fun p => specHostPorts p.2) = .ok ["2222", "5000", "5000"] ∧
    ¬ (["2222", "5000", "5000"] : List String).Nodup := by
  exact ⟨rfl, by decide⟩

/-- The generic wrapped start failure is never the distinguished port-conflict message. -/
theorem wrap_ne_conflict (s : String) :
    "failed to run the container: " ++ s ≠ "jupyter port is already allocated in the host" := by
  intro h
  have hd := congrArg String.data h
  rw [String.data_append] at hd
  have hA : ("failed to run the container: " : String).data =
      'f' :: ("ailed to run the container: " : String).data := by decide
  have hB : ("jupyter port is already allocated in the host" : String).data =
      'j' :: ("upyter port is already allocated in the host" : String).data := by decide
  rw [hA, hB] at hd
  simp at hd

/-- C8: a container-start failure whose cause reports the host port as already allocated
is surfaced as the distinguished port-conflict error; every other start failure is wrapped
as the generic fatal error; and the two outcomes are distinguishable (never equal). -/
theorem start_port_conflict_distinguished (e e2 : String) :
    (containsSubstr e "port is already allocated" = true →
      classifyStartErr e = "jupyter port is already allocated in the host") ∧
    (containsSubstr e2 "port is already allocated" = false →
      classifyStartErr e2 = "failed to run the container: " ++ e2) ∧
    (containsSubstr e "port is already allocated" = true →
      containsSubstr e2 "port is already allocated" = false →
      classifyStartErr e2 ≠ classifyStartErr e) := by
  refine ⟨?_, ?_, ?_⟩
  · intro h1
    simp [classifyStartErr, h1]
  · intro h2
    simp [classifyStartErr, h2]
  · intro h1 h2
    simp only [classifyStartErr, h1, h2, if_true, if_false, Bool.false_eq_true]
    exact wrap_ne_conflict e2

set_option maxRecDepth 8192 in
/-- Witness for C8: a daemon port-bind failure is classified as the port-conflict error,
and an unrelated start failure is wrapped as the generic fatal error. -/
theorem start_port_conflict_distinguished_witness :
    classifyStartErr
      "driver failed programming external connectivity: Bind for 127.0.0.1:2222 failed: port is already allocated" =
      "jupyter port is already allocated in the host" ∧
    classifyStartErr "oci runtime error" =
      "failed to run the container: " ++ "oci runtime error" := by
  constructor
  · exact (start_port_conflict_distinguished
      "driver failed programming external connectivity: Bind for 127.0.0.1:2222 failed: port is already allocated"
      "").1 (by decide)
  · exact (start_port_conflict_distinguished "" "oci runtime error").2.1 (by decide)
